import Mathlib

/-!
Verification of the ETL pipeline DAG (`src/dags/extract_transform_load.py`).

The pipeline is a linear four-stage chain (extract, transform, load,
validate).  We embed the stage bodies shallowly:

* currency amounts are modelled as exact rationals (`ℚ`), matching the
  decimal literals of the source;
* the per-run XCom store (record counts keyed by stage) is a structure of
  `Option Nat` fields, a pulled-but-never-pushed key reading as `none`
  (Python `None`);
* fallible stages return `Except String`, the raised message being the
  embedded error value;
* the flat-file targets and the SQLite database become fields of an
  explicit `PipelineState`, the database an association list from table
  name to row list (`to_sql` with `if_exists='replace'` replaces the
  entry wholesale).
-/

/-- A raw record as produced by `extract_data` (the columns of
`sample_data`). -/
structure Record where
  customer_id : Nat
  customer_name : String
  purchase_amount : ℚ
  purchase_date : String
  region : String
deriving DecidableEq

/-- A transformed record: the raw columns plus the derived columns added
by `transform_data` (tax_amount, total_amount, month, year,
purchase_category). -/
structure DerivedRecord where
  customer_id : Nat
  customer_name : String
  purchase_amount : ℚ
  date_year : Nat
  date_month : Nat
  date_day : Nat
  region : String
  tax_amount : ℚ
  total_amount : ℚ
  month : Nat
  year : Nat
  purchase_category : String
deriving DecidableEq

/-- Split a character list at every dash, keeping the groups between
them. -/
def splitOnDash : List Char → List (List Char)
  | [] => [[]]
  | c :: cs =>
    if c = '-' then [] :: splitOnDash cs
    else
      match splitOnDash cs with
      | [] => [[c]]
      | g :: gs => (c :: g) :: gs

/-- Read a nonempty all-digit character group as a decimal number; fail
on anything else. -/
def parseNatDigits (cs : List Char) : Option Nat :=
  if cs.isEmpty then none
  else if cs.all Char.isDigit then
    some (cs.foldl (fun n c => 10 * n + (c.toNat - 48)) 0)
  else none

/-- `pd.to_datetime` applied to one `YYYY-MM-DD` string (the reference
date format of the data): split on the dashes, require three numeric
components forming a plausible calendar date, else fail. -/
def parseDate (s : String) : Option (Nat × Nat × Nat) :=
  match splitOnDash s.data with
  | [ys, ms, ds] =>
    match parseNatDigits ys, parseNatDigits ms, parseNatDigits ds with
    | some y, some m, some d =>
      if 1 ≤ m ∧ m ≤ 12 ∧ 1 ≤ d ∧ d ≤ 31 then some (y, m, d) else none
    | _, _, _ => none
  | _ => none

/-- The categorisation lambda of `transform_data`:
`'High' if x > 200 else 'Medium' if x > 100 else 'Low'`. -/
def categorize (x : ℚ) : String :=
  if x > 200 then "High" else if x > 100 then "Medium" else "Low"

/-- The per-row work of `transform_data`: parse the date (failing the
stage on a malformed date, as `pd.to_datetime` raises), add the 10% tax
column, the total column, month and year, and the category column. -/
def transformRecord (r : Record) : Except String DerivedRecord :=
  match parseDate r.purchase_date with
  | none => .error ("time data " ++ r.purchase_date ++ " does not match a date format")
  | some (y, m, d) => .ok
    { customer_id := r.customer_id
      customer_name := r.customer_name
      purchase_amount := r.purchase_amount
      date_year := y
      date_month := m
      date_day := d
      region := r.region
      tax_amount := r.purchase_amount * 0.10
      total_amount := r.purchase_amount + r.purchase_amount * 0.10
      month := m
      year := y
      purchase_category := categorize r.purchase_amount }

/-- `transform_data` on the full record set: derive every row, raising on
the first malformed row (no row is skipped, no partial output). -/
def transform_data : List Record → Except String (List DerivedRecord)
  | [] => .ok []
  | r :: rs =>
    match transformRecord r with
    | .error e => .error e
    | .ok d =>
      match transform_data rs with
      | .error e => .error e
      | .ok ds => .ok (d :: ds)

/-- The per-run XCom store: one record-count key per publishing stage.
A key never pushed reads back as `none` (Python `None` from
`xcom_pull`). -/
structure MetadataBus where
  extracted_records : Option Nat
  transformed_records : Option Nat
  loaded_records : Option Nat
deriving DecidableEq

/-- The SQLite database: table name to full row list. -/
def Db : Type := List (String × List DerivedRecord)

instance : DecidableEq Db := by unfold Db; infer_instance

/-- `df.to_sql(name, conn, if_exists='replace')`: drop any existing table
of that name and create it afresh with exactly the given rows. -/
def setTable (db : Db) (name : String) (rows : List DerivedRecord) : Db :=
  (name, rows) :: db.filter (fun p => ¬ (p.1 = name))

/-- `SELECT * FROM name` (reading a table that does not exist gives no
rows). -/
def getTable (db : Db) (name : String) : List DerivedRecord :=
  match db.find? (fun p => p.1 = name) with
  | some p => p.2
  | none => []

/-- The filesystem and database state one pipeline run reads and writes:
the raw CSV target, the transformed CSV target, the SQLite database, and
the run's XCom store. -/
structure PipelineState where
  raw_file : Option (List Record)
  transformed_file : Option (List DerivedRecord)
  db : Db
  bus : MetadataBus
deriving DecidableEq

/-- The fixed `sample_data` dataset of `extract_data`. -/
def sample_data : List Record :=
  [ { customer_id := 1, customer_name := "John Doe", purchase_amount := 150.50,
      purchase_date := "2024-01-01", region := "North" },
    { customer_id := 2, customer_name := "Jane Smith", purchase_amount := 200.00,
      purchase_date := "2024-01-02", region := "South" },
    { customer_id := 3, customer_name := "Bob Johnson", purchase_amount := 75.25,
      purchase_date := "2024-01-03", region := "East" },
    { customer_id := 4, customer_name := "Alice Brown", purchase_amount := 300.75,
      purchase_date := "2024-01-04", region := "West" },
    { customer_id := 5, customer_name := "Charlie Wilson", purchase_amount := 125.00,
      purchase_date := "2024-01-05", region := "North" } ]

/-- `extract_data`: write the fixed sample dataset to the raw target
(overwriting whatever was there) and push `extracted_records` with the
row count.  It never fails and reads no input. -/
def extract_data (s : PipelineState) : PipelineState :=
  { s with raw_file := some sample_data,
           bus := { s.bus with extracted_records := some sample_data.length } }

/-- `transform_data` as a stage: read the raw target, derive every row,
write the transformed target (overwrite) and push `transformed_records`.
A missing raw target or a malformed row raises. -/
def transform_stage (s : PipelineState) : Except String PipelineState :=
  match s.raw_file with
  | none => .error "No such file or directory: raw_data.csv"
  | some rows =>
    match transform_data rows with
    | .error e => .error e
    | .ok out => .ok
      { s with transformed_file := some out,
               bus := { s.bus with transformed_records := some out.length } }

/-- The body of `load_data` on the database alone: replace the
`customer_purchases` table with the given rows, then re-count the rows
with `SELECT COUNT(*)` against the database (the published count is the
read-back, not the input length). -/
def load_data (db : Db) (rows : List DerivedRecord) : Db × Nat :=
  let db2 := setTable db "customer_purchases" rows
  let count := (getTable db2 "customer_purchases").length
  (db2, count)

/-- `load_data` as a stage: read the transformed target, replace the
table, push `loaded_records` with the read-back count. -/
def load_stage (s : PipelineState) : Except String PipelineState :=
  match s.transformed_file with
  | none => .error "No such file or directory: transformed_data.csv"
  | some rows =>
    .ok { s with db := (load_data s.db rows).1,
                 bus := { s.bus with loaded_records := some (load_data s.db rows).2 } }

/-- The fixed error message of `validate_pipeline`: the `ValueError` text
raised on a count mismatch (an f-string with no placeholder in the
source, so no count value ever appears in it). -/
def validationErrMsg : String := "Pipeline validation failed! Record counts don't match."

/-- How a pulled count renders in the printed summary (`None` when the
key was never pushed). -/
def showCount : Option Nat → String
  | none => "None"
  | some n => toString n

/-- `validate_pipeline`: pull the three counts (missing keys read as
`none`), print the summary, then succeed iff
`extracted == transformed == loaded` (Python chained comparison:
`extracted == transformed and transformed == loaded`), else raise the
fixed `ValueError`.  Returns the printed lines and the outcome. -/
def validate_pipeline (bus : MetadataBus) : List String × Except String Unit :=
  let extracted := bus.extracted_records
  let transformed := bus.transformed_records
  let loaded := bus.loaded_records
  let summary :=
    [ "Validating pipeline execution...",
      "Pipeline Summary:",
      "  - Extracted: " ++ showCount extracted ++ " records",
      "  - Transformed: " ++ showCount transformed ++ " records",
      "  - Loaded: " ++ showCount loaded ++ " records" ]
  if extracted = transformed ∧ transformed = loaded then
    (summary ++ ["Pipeline validation successful! All stages processed the same number of records."],
     .ok ())
  else
    (summary, .error validationErrMsg)

/-- One full run of the DAG in its declared order
extract >> transform >> load >> validate; a stage failure fails the run
and skips the dependents. -/
def run_pipeline (s : PipelineState) : Except String PipelineState :=
  match transform_stage (extract_data s) with
  | .error e => .error e
  | .ok s2 =>
    match load_stage s2 with
    | .error e => .error e
    | .ok s3 =>
      match (validate_pipeline s3.bus).2 with
      | .error e => .error e
      | .ok _ => .ok s3

/-- The four task identities declared in the DAG. -/
inductive TaskId where
  | extract
  | transform
  | load
  | validate
deriving DecidableEq, Fintype

/-- The dependency edges declared on line 188 of the source:
`extract_task >> transform_task >> load_task >> validate_task`. -/
def dag_edges : List (TaskId × TaskId) :=
  [ (TaskId.extract, TaskId.transform),
    (TaskId.transform, TaskId.load),
    (TaskId.load, TaskId.validate) ]

/-- A run order the scheduler may use: every task exactly once, and every
declared edge's upstream task strictly before its downstream task. -/
def validSchedule (sched : List TaskId) : Prop :=
  sched.Nodup ∧ (∀ t : TaskId, t ∈ sched)
    ∧ ∀ e ∈ dag_edges, sched.indexOf e.1 < sched.indexOf e.2

/-- The transformed record set the pipeline derives from `sample_data`. -/
def transformedSample : List DerivedRecord :=
  (transform_data sample_data).toOption.getD []

/-- A fresh environment: no targets written, no database tables, no
published counts. -/
def initState : PipelineState :=
  { raw_file := none, transformed_file := none, db := [], bus := ⟨none, none, none⟩ }

/-- The first sample record (purchase_amount 150.50). -/
def rec150 : Record :=
  { customer_id := 1, customer_name := "John Doe", purchase_amount := 150.50,
    purchase_date := "2024-01-01", region := "North" }

/-- A throwaway derived record used only as a `getD` default. -/
def noDerived : DerivedRecord :=
  { customer_id := 0, customer_name := "", purchase_amount := 0,
    date_year := 0, date_month := 0, date_day := 0, region := "",
    tax_amount := 0, total_amount := 0, month := 0, year := 0,
    purchase_category := "" }

/-- The derived record the transform produces from `rec150`. -/
def drec150 : DerivedRecord :=
  (transformRecord rec150).toOption.getD noDerived

/-- A fresh environment after the extract task has run. -/
def stateAfterExtract : PipelineState := extract_data initState

/-- The environment after extract and transform have run. -/
def stateAfterTransform : PipelineState :=
  (transform_stage stateAfterExtract).toOption.getD initState

/-- A record whose purchase_date no date parse accepts. -/
def badRecord : Record :=
  { customer_id := 6, customer_name := "Mallory", purchase_amount := 10,
    purchase_date := "not a date", region := "North" }

/-- The final state of one full run from a fresh environment. -/
def runOnce : PipelineState := (run_pipeline initState).toOption.getD initState

/-- The final state after running the full pipeline a second time. -/
def runTwice : PipelineState := (run_pipeline runOnce).toOption.getD initState

/-- The declared execution order itself, as a schedule. -/
def chainSched : List TaskId :=
  [TaskId.extract, TaskId.transform, TaskId.load, TaskId.validate]

theorem transform_data_length (rows : List Record) (out : List DerivedRecord)
    (h : transform_data rows = .ok out) : out.length = rows.length := by
  induction rows generalizing out with
  | nil => simp [transform_data] at h; simp [← h]
  | cons r rs ih =>
    simp only [transform_data] at h
    cases hr : transformRecord r with
    | error e => rw [hr] at h; exact absurd h (by simp)
    | ok d =>
      rw [hr] at h
      cases ht : transform_data rs with
      | error e => rw [ht] at h; exact absurd h (by simp)
      | ok ds =>
        rw [ht] at h
        cases h
        simpa using ih ds ht

theorem getTable_setTable (db : Db) (name : String) (rows : List DerivedRecord) :
    getTable (setTable db name rows) name = rows := by
  simp [getTable, setTable, List.find?]

/-- On any starting state the full run succeeds, writing the sample data,
its transformed rows, the replaced table, and the three equal counts. -/
theorem run_pipeline_eq (s : PipelineState) :
    run_pipeline s = .ok
      { raw_file := some sample_data,
        transformed_file := some transformedSample,
        db := setTable s.db "customer_purchases" transformedSample,
        bus := ⟨some 5, some 5, some 5⟩ } := by rfl

theorem transformRecord_category (r : Record) (d : DerivedRecord)
    (h : transformRecord r = .ok d) :
    d.purchase_category = categorize r.purchase_amount
    ∧ d.tax_amount = r.purchase_amount * 0.10
    ∧ d.total_amount = r.purchase_amount + r.purchase_amount * 0.10 := by
  unfold transformRecord at h
  cases hp : parseDate r.purchase_date with
  | none => rw [hp] at h; exact absurd h (by simp)
  | some t =>
    obtain ⟨y, m, dd⟩ := t
    rw [hp] at h
    simp only [Except.ok.injEq] at h
    subst h
    exact ⟨rfl, rfl, rfl⟩

theorem transform_data_error_of_mem (rows : List Record) (r : Record)
    (hmem : r ∈ rows) (hbad : parseDate r.purchase_date = none) :
    ∃ e, transform_data rows = .error e := by
  induction rows with
  | nil => cases hmem
  | cons x xs ih =>
    rcases List.mem_cons.mp hmem with hx | hxs
    · subst hx
      have hr : transformRecord r =
          .error ("time data " ++ r.purchase_date ++ " does not match a date format") := by
        unfold transformRecord; rw [hbad]
      exact ⟨"time data " ++ r.purchase_date ++ " does not match a date format",
        by simp only [transform_data, hr]⟩
    · cases hx : transformRecord x with
      | error e => exact ⟨e, by simp only [transform_data, hx]⟩
      | ok d =>
        obtain ⟨e, he⟩ := ih hxs
        exact ⟨e, by simp only [transform_data, hx, he]⟩

/-- C10: `extract_data` is a constant producer: whatever the prior state,
it writes exactly the fixed five sample records to the raw target,
publishes `extracted_records = 5`, and touches nothing else. -/
theorem extract_constant_producer (s : PipelineState) :
    (extract_data s).raw_file = some
      [ { customer_id := 1, customer_name := "John Doe", purchase_amount := 150.50,
          purchase_date := "2024-01-01", region := "North" },
        { customer_id := 2, customer_name := "Jane Smith", purchase_amount := 200.00,
          purchase_date := "2024-01-02", region := "South" },
        { customer_id := 3, customer_name := "Bob Johnson", purchase_amount := 75.25,
          purchase_date := "2024-01-03", region := "East" },
        { customer_id := 4, customer_name := "Alice Brown", purchase_amount := 300.75,
          purchase_date := "2024-01-04", region := "West" },
        { customer_id := 5, customer_name := "Charlie Wilson", purchase_amount := 125.00,
          purchase_date := "2024-01-05", region := "North" } ]
    ∧ (extract_data s).bus.extracted_records = some 5
    ∧ (extract_data s).transformed_file = s.transformed_file
    ∧ (extract_data s).db = s.db :=
  ⟨rfl, rfl, rfl, rfl⟩

/-- C3: the category assigned by the transform is High exactly above
200, Medium exactly on (100, 200], Low exactly at or below 100; the
three buckets are exhaustive and mutually exclusive, and the boundary
amounts 200, 200.01, 100, 100.01 land in Medium, High, Low, Medium
respectively. -/
theorem purchase_category_boundaries :
    (∀ x : ℚ,
      (categorize x = "High" ↔ 200 < x)
      ∧ (categorize x = "Medium" ↔ 100 < x ∧ x ≤ 200)
      ∧ (categorize x = "Low" ↔ x ≤ 100)
      ∧ (categorize x = "High" ∨ categorize x = "Medium" ∨ categorize x = "Low"))
    ∧ categorize 200 = "Medium"
    ∧ categorize 200.01 = "High"
    ∧ categorize 100 = "Low"
    ∧ categorize 100.01 = "Medium"
    ∧ ∀ (r : Record) (d : DerivedRecord), transformRecord r = .ok d →
        d.purchase_category = categorize r.purchase_amount := by
  refine ⟨?_, ?_, ?_, ?_, ?_, fun r d h => (transformRecord_category r d h).1⟩
  · intro x
    by_cases h1 : (200 : ℚ) < x
    · have hc : categorize x = "High" := by
        unfold categorize; rw [if_pos h1]
      rw [hc]
      refine ⟨by simp [h1], ?_, ?_, Or.inl rfl⟩
      · constructor
        · intro h; exact absurd h (by decide)
        · intro h; exact absurd h1 (not_lt.mpr h.2)
      · constructor
        · intro h; exact absurd h (by decide)
        · intro h; exact absurd h1 (not_lt.mpr (h.trans (by norm_num)))
    · by_cases h2 : (100 : ℚ) < x
      · have hc : categorize x = "Medium" := by
          unfold categorize; rw [if_neg h1, if_pos h2]
        rw [hc]
        refine ⟨?_, by simp [h2, not_lt.mp h1], ?_, Or.inr (Or.inl rfl)⟩
        · constructor
          · intro h; exact absurd h (by decide)
          · intro h; exact absurd h h1
        · constructor
          · intro h; exact absurd h (by decide)
          · intro h; exact absurd h2 (not_lt.mpr h)
      · have hc : categorize x = "Low" := by
          unfold categorize; rw [if_neg h1, if_neg h2]
        rw [hc]
        refine ⟨?_, ?_, by simp [not_lt.mp h2], Or.inr (Or.inr rfl)⟩
        · constructor
          · intro h; exact absurd h (by decide)
          · intro h; exact absurd h h1
        · constructor
          · intro h; exact absurd h (by decide)
          · intro h; exact absurd h.1 h2
  · unfold categorize
    rw [if_neg (by norm_num), if_pos (by norm_num)]
  · unfold categorize
    rw [if_pos (by norm_num)]
  · unfold categorize
    rw [if_neg (by norm_num), if_neg (by norm_num)]
  · unfold categorize
    rw [if_neg (by norm_num), if_pos (by norm_num)]

/-- C3 witness: the transform really assigns `drec150` the category the
lambda gives its amount. -/
theorem purchase_category_boundaries_witness :
    drec150.purchase_category = categorize rec150.purchase_amount :=
  purchase_category_boundaries.2.2.2.2.2 rec150 drec150 (by rfl)

/-- C4: the transform computes tax_amount as purchase_amount times the
fixed 0.10 rate and total_amount as purchase_amount plus tax_amount; at
purchase_amount 150.50 this is exactly 15.05 and 165.55. -/
theorem tax_total_computation :
    (∀ (r : Record) (d : DerivedRecord), transformRecord r = .ok d →
      d.tax_amount = r.purchase_amount * 0.10
      ∧ d.total_amount = r.purchase_amount + d.tax_amount)
    ∧ rec150.purchase_amount = 150.50
    ∧ transformRecord rec150 = .ok drec150
    ∧ drec150.tax_amount = 15.05
    ∧ drec150.total_amount = 165.55 := by
  refine ⟨?_, rfl, by rfl, ?_, ?_⟩
  · intro r d h
    obtain ⟨-, htax, htot⟩ := transformRecord_category r d h
    exact ⟨htax, by rw [htot, htax]⟩
  · show (150.50 : ℚ) * 0.10 = 15.05
    norm_num
  · show (150.50 : ℚ) + 150.50 * 0.10 = 165.55
    norm_num

/-- C4 witness: the derivation law instantiated at the 150.50 sample
record. -/
theorem tax_total_computation_witness :
    drec150.tax_amount = rec150.purchase_amount * 0.10
    ∧ drec150.total_amount = rec150.purchase_amount + drec150.tax_amount :=
  tax_total_computation.1 rec150 drec150 (by rfl)

/-- C2: a successful transform writes exactly one derived row per input
row — same row count as the raw target it read — and publishes that same
count as `transformed_records`. -/
theorem transform_preserves_count :
    ∀ (s s2 : PipelineState), transform_stage s = .ok s2 →
      ∃ rows out, s.raw_file = some rows ∧ s2.transformed_file = some out
        ∧ out.length = rows.length
        ∧ s2.bus.transformed_records = some out.length := by
  intro s s2 h
  unfold transform_stage at h
  split at h
  · exact absurd h (by simp)
  · rename_i rows hr
    split at h
    · exact absurd h (by simp)
    · rename_i out ht
      simp only [Except.ok.injEq] at h
      subst h
      exact ⟨rows, out, hr, rfl, transform_data_length rows out ht, rfl⟩

/-- C2 witness: the count-preservation fact on the concrete sample run. -/
theorem transform_preserves_count_witness :
    ∃ rows out, stateAfterExtract.raw_file = some rows
      ∧ stateAfterTransform.transformed_file = some out
      ∧ out.length = rows.length
      ∧ stateAfterTransform.bus.transformed_records = some out.length :=
  transform_preserves_count stateAfterExtract stateAfterTransform (by rfl)

/-- C8: one unparseable purchase_date fails the whole transform: the
stage raises (no transformed output at all, so no record is skipped and
no partial row set is written), and the stage-level call propagates the
error to the runner. -/
theorem transform_fails_on_bad_date :
    ∀ rows : List Record,
      (∃ r ∈ rows, parseDate r.purchase_date = none) →
      (∃ e, transform_data rows = .error e)
      ∧ (∀ out, ¬ transform_data rows = .ok out)
      ∧ ∀ s : PipelineState, s.raw_file = some rows →
          ∃ e, transform_stage s = .error e := by
  intro rows hbad
  obtain ⟨r, hmem, hnone⟩ := hbad
  obtain ⟨e, he⟩ := transform_data_error_of_mem rows r hmem hnone
  refine ⟨⟨e, he⟩, ?_, ?_⟩
  · intro out hout
    rw [he] at hout
    exact Except.noConfusion hout
  · intro s hs
    refine ⟨e, ?_⟩
    unfold transform_stage
    rw [hs]
    simp only [he]

/-- C8 witness: a one-record set with the unparseable date fails the
transform, stage call included. -/
theorem transform_fails_on_bad_date_witness :
    (∃ e, transform_data [badRecord] = .error e)
    ∧ (∀ out, ¬ transform_data [badRecord] = .ok out)
    ∧ ∀ s : PipelineState, s.raw_file = some [badRecord] →
        ∃ e, transform_stage s = .error e :=
  transform_fails_on_bad_date [badRecord]
    ⟨badRecord, by simp, by rfl⟩

/-- C5: `load_data` replaces the whole `customer_purchases` table with
the rows it read — the post-state table is exactly those rows, whatever
the store held before — and the count it publishes is the read-back row
count of the table after the write. -/
theorem load_replaces_and_reads_back :
    ∀ (db : Db) (rows : List DerivedRecord) (s : PipelineState),
      getTable (load_data db rows).1 "customer_purchases" = rows
      ∧ (load_data db rows).2
          = (getTable (load_data db rows).1 "customer_purchases").length
      ∧ load_stage { s with transformed_file := some rows } = .ok
          { s with transformed_file := some rows,
                   db := (load_data s.db rows).1,
                   bus := { s.bus with loaded_records := some (load_data s.db rows).2 } }
      ∧ (load_data s.db rows).2 = rows.length := by
  intro db rows s
  refine ⟨getTable_setTable db _ rows, rfl, rfl, ?_⟩
  show (getTable (setTable s.db "customer_purchases" rows) "customer_purchases").length
    = rows.length
  rw [getTable_setTable]

/-- C1 counterexample: in a run where no predecessor ever published its
count, all three pulls return `None`, the chained comparison
`None == None == None` holds, and validate succeeds instead of
failing. -/
theorem validate_all_missing_succeeds :
    (validate_pipeline ⟨none, none, none⟩).2 = .ok () := by rfl

/-- C1 amended: validate succeeds iff the three pulled values — `None`
when never published — are all equal; hence it does fail whenever some
but not all counts are missing (any published count differing from a
missing one), but it succeeds when all three are missing. -/
theorem validate_ok_iff_counts_equal :
    ∀ bus : MetadataBus,
      ((validate_pipeline bus).2 = .ok ()
        ↔ bus.extracted_records = bus.transformed_records
          ∧ bus.transformed_records = bus.loaded_records)
      ∧ ∀ n, bus.extracted_records = some n →
          (bus.transformed_records = none ∨ bus.loaded_records = none) →
          (validate_pipeline bus).2 = .error validationErrMsg := by
  intro bus
  constructor
  · simp only [validate_pipeline]
    split_ifs with h
    · exact ⟨fun _ => h, fun _ => rfl⟩
    · exact ⟨fun he => absurd he (by simp), fun hc => absurd hc h⟩
  · intro n hn hmiss
    simp only [validate_pipeline]
    rw [if_neg ?hne]
    case hne =>
      intro h
      rcases hmiss with hm | hm
      · rw [hn, hm] at h
        exact Option.noConfusion h.1
      · have h2 := h.1.trans h.2
        rw [hn, hm] at h2
        exact Option.noConfusion h2

/-- C1 witness: a published extracted count next to a missing
transformed count makes validate raise. -/
theorem validate_ok_iff_counts_equal_witness :
    (validate_pipeline ⟨some 5, none, some 5⟩).2 = .error validationErrMsg :=
  (validate_ok_iff_counts_equal ⟨some 5, none, some 5⟩).2 5 rfl (Or.inl rfl)

/-- C7 counterexample: at extracted=5, transformed=5, loaded=4 the raised
error is the fixed message, which contains neither the digit 4 nor the
digit 5; a different mismatch raises the very same error value. -/
theorem validate_error_not_descriptive :
    (validate_pipeline ⟨some 5, some 5, some 4⟩).2 = .error validationErrMsg
    ∧ ¬ ('4' ∈ validationErrMsg.data)
    ∧ ¬ ('5' ∈ validationErrMsg.data)
    ∧ (validate_pipeline ⟨some 5, some 5, some 4⟩).2
        = (validate_pipeline ⟨some 7, some 7, some 6⟩).2 :=
  ⟨rfl, by decide, by decide, rfl⟩

/-- C7 amended: on any count mismatch validate raises the fixed message
(naming no count values); the specific per-stage counts appear only in
the summary lines it printed just before raising. -/
theorem validate_mismatch_fixed_error :
    ∀ bus : MetadataBus,
      ¬ (bus.extracted_records = bus.transformed_records
          ∧ bus.transformed_records = bus.loaded_records) →
      (validate_pipeline bus).2 = .error validationErrMsg
      ∧ ("  - Extracted: " ++ showCount bus.extracted_records ++ " records")
          ∈ (validate_pipeline bus).1
      ∧ ("  - Transformed: " ++ showCount bus.transformed_records ++ " records")
          ∈ (validate_pipeline bus).1
      ∧ ("  - Loaded: " ++ showCount bus.loaded_records ++ " records")
          ∈ (validate_pipeline bus).1 := by
  intro bus h
  simp only [validate_pipeline]
  rw [if_neg h]
  refine ⟨rfl, ?_, ?_, ?_⟩ <;> simp

/-- C7 witness: the amended behavior at the mismatch 5, 5, 4. -/
theorem validate_mismatch_fixed_error_witness :
    (validate_pipeline ⟨some 5, some 5, some 4⟩).2 = .error validationErrMsg
    ∧ ("  - Extracted: " ++ showCount (some 5) ++ " records")
        ∈ (validate_pipeline ⟨some 5, some 5, some 4⟩).1
    ∧ ("  - Transformed: " ++ showCount (some 5) ++ " records")
        ∈ (validate_pipeline ⟨some 5, some 5, some 4⟩).1
    ∧ ("  - Loaded: " ++ showCount (some 4) ++ " records")
        ∈ (validate_pipeline ⟨some 5, some 5, some 4⟩).1 :=
  validate_mismatch_fixed_error ⟨some 5, some 5, some 4⟩ (by decide)

/-- C6: running the whole pipeline a second time reproduces the first
run's outputs — same `customer_purchases` table contents, same raw and
transformed targets, same published counts — because every stage
overwrites its target instead of appending. -/
theorem pipeline_idempotent :
    ∀ s s1 s2 : PipelineState,
      run_pipeline s = .ok s1 → run_pipeline s1 = .ok s2 →
      getTable s2.db "customer_purchases" = getTable s1.db "customer_purchases"
      ∧ s2.raw_file = s1.raw_file
      ∧ s2.transformed_file = s1.transformed_file
      ∧ s2.bus = s1.bus := by
  intro s s1 s2 h1 h2
  rw [run_pipeline_eq s] at h1
  simp only [Except.ok.injEq] at h1
  subst h1
  rw [run_pipeline_eq] at h2
  simp only [Except.ok.injEq] at h2
  subst h2
  refine ⟨?_, rfl, rfl, rfl⟩
  rw [getTable_setTable, getTable_setTable]

/-- C6 witness: two consecutive concrete runs from a fresh environment
agree on every output. -/
theorem pipeline_idempotent_witness :
    getTable runTwice.db "customer_purchases" = getTable runOnce.db "customer_purchases"
    ∧ runTwice.raw_file = runOnce.raw_file
    ∧ runTwice.transformed_file = runOnce.transformed_file
    ∧ runTwice.bus = runOnce.bus :=
  pipeline_idempotent initState runOnce runTwice (by rfl) (by rfl)

/-- C9: the declared dependency edges are exactly the linear chain
extract, transform, load, validate, and in every schedule honouring
them each stage runs strictly after its predecessor — in particular
validate runs strictly after load and after all three count
publishers. -/
theorem dag_linear_chain :
    dag_edges = [ (TaskId.extract, TaskId.transform),
                  (TaskId.transform, TaskId.load),
                  (TaskId.load, TaskId.validate) ]
    ∧ ∀ sched : List TaskId, validSchedule sched →
        sched.indexOf TaskId.extract < sched.indexOf TaskId.transform
        ∧ sched.indexOf TaskId.transform < sched.indexOf TaskId.load
        ∧ sched.indexOf TaskId.load < sched.indexOf TaskId.validate
        ∧ sched.indexOf TaskId.extract < sched.indexOf TaskId.validate
        ∧ sched.indexOf TaskId.transform < sched.indexOf TaskId.validate := by
  refine ⟨rfl, ?_⟩
  intro sched hs
  obtain ⟨-, -, hord⟩ := hs
  have h1 := hord (TaskId.extract, TaskId.transform) (by decide)
  have h2 := hord (TaskId.transform, TaskId.load) (by decide)
  have h3 := hord (TaskId.load, TaskId.validate) (by decide)
  exact ⟨h1, h2, h3, Nat.lt_trans h1 (Nat.lt_trans h2 h3), Nat.lt_trans h2 h3⟩

/-- C9 witness: the declared order itself is a valid schedule and shows
the strict ordering. -/
theorem dag_linear_chain_witness :
    chainSched.indexOf TaskId.extract < chainSched.indexOf TaskId.transform
    ∧ chainSched.indexOf TaskId.transform < chainSched.indexOf TaskId.load
    ∧ chainSched.indexOf TaskId.load < chainSched.indexOf TaskId.validate
    ∧ chainSched.indexOf TaskId.extract < chainSched.indexOf TaskId.validate
    ∧ chainSched.indexOf TaskId.transform < chainSched.indexOf TaskId.validate :=
  dag_linear_chain.2 chainSched ⟨by decide, by decide, by decide⟩
